import Mathlib

/-!
Verification development for the True-Gather backend (Rust).

Shallow embedding of the data model and the operations of the room store
(src/redis/room_repository.rs), the room/invitation model (src/models/room.rs),
the REST handlers (src/api/rooms.rs), the error taxonomy (src/error.rs), the
auth service (src/auth/mod.rs), the WebSocket signaling layer
(src/ws/handler.rs, src/ws/session.rs), and the media gateway / track
forwarder (src/media/gateway.rs, src/media/track_forwarder.rs).

Conventions of the embedding:
- Rust timestamps (chrono DateTime, Utc::now) are Int unix seconds; every
  function that calls Utc::now in the source takes an explicit `now` argument.
- Rust u32 / u64 fields are Nat; no arithmetic in the modelled paths can
  overflow 64 bits for realistic inputs, and the source does only
  comparisons and single increments on them.
- Redis acts as association lists with explicit TTL values where the claim
  under study depends on TTLs.
- Nondeterministic choices in the source (freshly minted UUIDs, generated
  tokens) become explicit parameters.
-/

namespace TrueGather

/-- Decidable equality for Except, used to evaluate handler results on
concrete inputs. -/
instance {ε α : Type} [DecidableEq ε] [DecidableEq α] : DecidableEq (Except ε α) :=
  fun a b =>
    match a, b with
    | .error x, .error y =>
      if h : x = y then .isTrue (by rw [h])
      else .isFalse (fun hh => by cases hh; exact h rfl)
    | .error _, .ok _ => .isFalse (fun hh => by cases hh)
    | .ok _, .error _ => .isFalse (fun hh => by cases hh)
    | .ok x, .ok y =>
      if h : x = y then .isTrue (by rw [h])
      else .isFalse (fun hh => by cases hh; exact h rfl)

/-- Rust str::trim on the characters of the string: strip leading and
trailing whitespace (the source data is ASCII, where Char.isWhitespace
and Rust char::is_whitespace agree). -/
def rustTrim (s : String) : String :=
  (((s.toList.dropWhile Char.isWhitespace).reverse.dropWhile
      Char.isWhitespace).reverse).asString

/-- Rust str::len: the UTF-8 byte length of the string. -/
def rustByteLen (s : String) : Nat :=
  (s.toList.map Char.utf8Size).sum

/-- Error taxonomy from src/error.rs (enum AppError). -/
inductive AppError where
  | NotFound (msg : String)
  | Unauthorized (msg : String)
  | BadRequest (msg : String)
  | InternalError (msg : String)
  | RedisError (msg : String)
  | WebRtcError (msg : String)
  | RoomFull
  | JwtError (msg : String)
deriving Repr, DecidableEq

/-- HTTP status mapping from src/error.rs (impl IntoResponse for AppError). -/
def AppError.statusCode : AppError → Nat
  | .NotFound _ => 404
  | .Unauthorized _ => 401
  | .BadRequest _ => 400
  | .InternalError _ => 500
  | .RedisError _ => 500
  | .WebRtcError _ => 500
  | .RoomFull => 409
  | .JwtError _ => 401

/-- JWT claims from src/models/user.rs (struct Claims). -/
structure Claims where
  sub : String
  room_id : String
  display : String
  iat : Int
  exp : Int
deriving Repr, DecidableEq

/-- Room record from src/models/room.rs (struct Room). -/
structure Room where
  room_id : String
  name : String
  created_at : Int
  max_publishers : Nat
  ttl_seconds : Nat
deriving Repr, DecidableEq

/-- Room constructor from src/models/room.rs (Room::new); the freshly minted
UUID and the creation instant are explicit parameters. -/
def Room.new (fresh_uuid : String) (now : Int) (name : String)
    (max_publishers : Nat) (ttl_seconds : Nat) : Room :=
  { room_id := fresh_uuid
    name := name
    created_at := now
    max_publishers := max_publishers
    ttl_seconds := ttl_seconds }

/-- Invitation record from src/models/room.rs (struct RoomInvitation).
The use counter is declared as field used_count; the repository source
refers to the same counter when it increments it. -/
structure RoomInvitation where
  token : String
  room_id : String
  created_by : String
  created_at : Int
  expires_at : Int
  max_uses : Option Nat
  used_count : Nat
  email : Option String
  code_salt : String
  code_hash : String
deriving Repr, DecidableEq

/-- Validity check from src/models/room.rs (RoomInvitation::is_valid):
not expired, use count below max_uses when bounded, and both security
fields non-blank after trimming. -/
def RoomInvitation.is_valid (inv : RoomInvitation) (now : Int) : Bool :=
  if inv.expires_at < now then
    false
  else if (match inv.max_uses with
           | some max => decide (max ≤ inv.used_count)
           | none => false) then
    false
  else if (rustTrim inv.code_salt).isEmpty || (rustTrim inv.code_hash).isEmpty then
    false
  else
    true

/-- One Redis entry for an invitation: key invite:token, JSON value, TTL. -/
structure InviteEntry where
  token : String
  inv : RoomInvitation
  ttl : Int
deriving Repr, DecidableEq

/-- The invitation keyspace: entries for keys of the form invite:token. -/
def InviteStore := List InviteEntry

instance : DecidableEq InviteStore := by
  unfold InviteStore
  infer_instance

/-- Redis GET on invite:token followed by JSON decode
(RoomRepository::get_invitation). -/
def get_invitation (store : InviteStore) (token : String) : Option RoomInvitation :=
  (store.find? (fun e => e.token == token)).map (fun e => e.inv)

/-- Redis SETEX on invite:token: (re)writes the value under the key with the
given TTL. -/
def inviteSetex (store : InviteStore) (token : String) (inv : RoomInvitation)
    (ttl : Int) : InviteStore :=
  ({ token := token, inv := inv, ttl := ttl } : InviteEntry)
    :: store.filter (fun e => ¬ (e.token == token))

/-- Use-invitation from src/redis/room_repository.rs
(RoomRepository::use_invitation): load, re-check validity, increment the use
counter, rewrite under the remaining TTL (at least 1 second). Returns the
boolean result together with the resulting keyspace. -/
def use_invitation (store : InviteStore) (token : String) (now : Int) :
    Bool × InviteStore :=
  match get_invitation store token with
  | none => (false, store)
  | some invitation =>
    if ¬ invitation.is_valid now then
      (false, store)
    else
      let invitation' := { invitation with used_count := invitation.used_count + 1 }
      let ttl := max (invitation'.expires_at - now) 1
      (true, inviteSetex store token invitation' ttl)

/-! TTL view of the Redis keyspace, for the TTL-cascade behaviour of
RoomRepository::refresh_room_ttl. A key is paired with its current TTL in
seconds; EXPIRE on an absent key is a no-op, exactly as in Redis. -/

/-- Keyspace with TTLs: list of (key, ttl seconds). -/
def TtlStore := List (String × Int)

instance : DecidableEq TtlStore := by
  unfold TtlStore
  infer_instance

/-- Redis EXPIRE key ttl: resets the TTL of the key when present. -/
def expire (store : TtlStore) (key : String) (ttl : Int) : TtlStore :=
  store.map (fun e => if e.1 == key then (e.1, ttl) else e)

/-- Redis TTL key, for observing the effect of EXPIRE. -/
def lookupTTL (store : TtlStore) (key : String) : Option Int :=
  (store.find? (fun e => e.1 == key)).map (fun e => e.2)

/-- TTL refresh from src/redis/room_repository.rs
(RoomRepository::refresh_room_ttl): EXPIRE is issued for exactly three keys,
the room key, the members set key, and the publishers hash key. -/
def refresh_room_ttl (store : TtlStore) (room_id : String) (ttl_seconds : Int) :
    TtlStore :=
  let keys := [("room:" ++ room_id),
               ("room:" ++ room_id ++ ":members"),
               ("room:" ++ room_id ++ ":publishers")]
  keys.foldl (fun s k => expire s k ttl_seconds) store

/-! Credential verifier (src/auth/mod.rs) over an idealized model of the
jsonwebtoken crate: a well-formed token carries its claims together with a
signature, and a signature is modelled as the pair of the signing secret and
the signed claims (ideal MAC: verification recomputes and compares). Any
byte string that is not a well-formed JWT is a malformed token. Expiry
validation rejects a token whose exp lies before the validation instant. -/

/-- Ideal HS256 signature: determined by the secret and the signed claims. -/
structure JwtSignature where
  key : String
  payload : Claims
deriving Repr, DecidableEq

/-- A bearer token string, as the jsonwebtoken crate classifies it: either a
syntactically well-formed JWT carrying claims and a signature, or malformed. -/
inductive JwtToken where
  | signed (claims : Claims) (sig : JwtSignature)
  | malformed (raw : String)
deriving Repr, DecidableEq

/-- jsonwebtoken encode with an HMAC secret (ideal-MAC model). -/
def jwtEncode (secret : String) (claims : Claims) : JwtToken :=
  .signed claims { key := secret, payload := claims }

/-- jsonwebtoken decode with default validation: reject malformed input,
verify the signature against the secret, then reject an exp in the past. -/
def jwtDecode (secret : String) (now : Int) (token : JwtToken) :
    Except String Claims :=
  match token with
  | .malformed _ => .error ("InvalidToken")
  | .signed claims sig =>
    if sig ≠ { key := secret, payload := claims } then
      .error ("InvalidSignature")
    else if claims.exp < now then
      .error ("ExpiredSignature")
    else
      .ok claims

/-- Auth service from src/auth/mod.rs (struct AuthService). -/
structure AuthService where
  secret : String
  expiry_seconds : Nat
deriving Repr, DecidableEq

/-- Token generation from src/auth/mod.rs (AuthService::generate_token);
the current instant is an explicit parameter. -/
def AuthService.generate_token (svc : AuthService) (now : Int)
    (user_id room_id display : String) : JwtToken :=
  jwtEncode svc.secret
    { sub := user_id
      room_id := room_id
      display := display
      iat := now
      exp := now + (svc.expiry_seconds : Int) }

/-- Token validation from src/auth/mod.rs (AuthService::validate_token):
any decode failure is mapped to AppError::Unauthorized. -/
def AuthService.validate_token (svc : AuthService) (now : Int)
    (token : JwtToken) : Except AppError Claims :=
  match jwtDecode svc.secret now token with
  | .error e => .error (.Unauthorized ("Invalid token: " ++ e))
  | .ok claims => .ok claims

/-! Room keyspace as seen by the REST and WebSocket handlers. -/

/-- Redis GET on room:id followed by JSON decode (RoomRepository::get_room):
rooms as association list room_id to Room. -/
def getRoom (rooms : List (String × Room)) (room_id : String) : Option Room :=
  (rooms.find? (fun e => e.1 == room_id)).map (fun e => e.2)

/-- Query parameters of the WebSocket upgrade request (src/ws/handler.rs,
struct WsQueryParams); the token arrives as a bearer string, modelled by
JwtToken. -/
structure WsQueryParams where
  room_id : String
  token : JwtToken
deriving Repr, DecidableEq

/-- WebSocket upgrade guard from src/ws/handler.rs (ws_upgrade): validate the
token, require the embedded room_id to equal the query room_id, require the
room to exist; on success the socket is bound to the claims. -/
def ws_upgrade (svc : AuthService) (now : Int) (rooms : List (String × Room))
    (params : WsQueryParams) : Except AppError Claims :=
  match svc.validate_token now params.token with
  | .error e => .error e
  | .ok claims =>
    if claims.room_id ≠ params.room_id then
      .error (.Unauthorized ("Token room_id does not match"))
    else
      match getRoom rooms params.room_id with
      | none => .error (.NotFound ("Room not found"))
      | some _ => .ok claims

/-! Per-socket signaling session state (src/ws/session.rs). -/

/-- Session state from src/ws/session.rs (struct WsSessionState). -/
structure WsSessionState where
  conn_id : String
  user_id : String
  room_id : String
  display : String
  claims : Claims
  is_publishing : Bool
  feed_id : Option String
  subscribed_feeds : List String
deriving Repr, DecidableEq

/-- Fresh session from src/ws/session.rs (WsSessionState::new). -/
def WsSessionState.new (conn_id : String) (claims : Claims) : WsSessionState :=
  { conn_id := conn_id
    user_id := claims.sub
    room_id := claims.room_id
    display := claims.display
    claims := claims
    is_publishing := false
    feed_id := none
    subscribed_feeds := [] }

/-- Mark-publishing from src/ws/session.rs (WsSessionState::set_publishing). -/
def WsSessionState.set_publishing (s : WsSessionState) (feed_id : String) :
    WsSessionState :=
  { s with is_publishing := true, feed_id := some feed_id }

/-- Add-subscription from src/ws/session.rs (WsSessionState::add_subscription):
insert the feed id unless already present. -/
def WsSessionState.add_subscription (s : WsSessionState) (feed_id : String) :
    WsSessionState :=
  if s.subscribed_feeds.contains feed_id then s
  else { s with subscribed_feeds := s.subscribed_feeds ++ [feed_id] }

/-- Remove-subscription from src/ws/session.rs
(WsSessionState::remove_subscription). -/
def WsSessionState.remove_subscription (s : WsSessionState) (feed_id : String) :
    WsSessionState :=
  { s with subscribed_feeds := s.subscribed_feeds.filter (fun f => f ≠ feed_id) }

/-- States reachable from a fresh session through the session operations. -/
inductive WsSessionState.Reachable : WsSessionState → Prop where
  | new (conn_id : String) (claims : Claims) :
      Reachable (WsSessionState.new conn_id claims)
  | set_publishing {s : WsSessionState} (feed_id : String) :
      Reachable s → Reachable (s.set_publishing feed_id)
  | add_subscription {s : WsSessionState} (feed_id : String) :
      Reachable s → Reachable (s.add_subscription feed_id)
  | remove_subscription {s : WsSessionState} (feed_id : String) :
      Reachable s → Reachable (s.remove_subscription feed_id)

/-! Configuration and room creation (src/config.rs, src/api/rooms.rs). -/

/-- The configuration fields consumed by the modelled handlers
(src/config.rs, struct Config). -/
structure Config where
  jwt_expiry_seconds : Nat
  room_ttl_seconds : Nat
  max_publishers_per_room : Nat
  invite_code_salt : String
deriving Repr, DecidableEq

/-- Room-creation request body from src/models/room.rs
(struct CreateRoomRequest). -/
structure CreateRoomRequest where
  name : String
  max_publishers : Nat
  ttl_seconds : Nat
deriving Repr, DecidableEq

/-- Room creation from src/api/rooms.rs (create_room): validate the name
(non-empty, at most 100 bytes), clamp max_publishers to the configured
ceiling, and substitute the configured default TTL for a zero request TTL.
Returns the Room record that is stored and echoed to the client. -/
def create_room (config : Config) (request : CreateRoomRequest)
    (fresh_uuid : String) (now : Int) : Except AppError Room :=
  if request.name.isEmpty then
    .error (.BadRequest ("Room name is required"))
  else if 100 < rustByteLen request.name then
    .error (.BadRequest ("Room name must be at most 100 characters"))
  else
    .ok (Room.new fresh_uuid now request.name
          (min request.max_publishers config.max_publishers_per_room)
          (if 0 < request.ttl_seconds then request.ttl_seconds
           else config.room_ttl_seconds))

/-! Join endpoint (src/api/rooms.rs, join_room). -/

/-- Join request body from src/models/user.rs (struct JoinRequest). -/
structure JoinRequest where
  display : String
  creator_key : Option String
  invite_token : Option String
  invite_code : Option String
deriving Repr, DecidableEq

/-- The Redis state touched by join_room: rooms, per-room member sets,
per-room creator-key hashes, and the invitation keyspace. -/
structure Store where
  rooms : List (String × Room)
  members : List (String × List String)
  creator_hashes : List (String × String)
  invites : InviteStore
deriving DecidableEq

/-- Redis SMEMBERS room:id:members (RoomRepository::get_members). -/
def getMembers (members : List (String × List String)) (room_id : String) :
    List String :=
  match members.find? (fun e => e.1 == room_id) with
  | some e => e.2
  | none => []

/-- Redis SADD room:id:members user (RoomRepository::add_member): set
semantics per room. -/
def addMember (members : List (String × List String)) (room_id user_id : String) :
    List (String × List String) :=
  match members.find? (fun e => e.1 == room_id) with
  | some e =>
    if e.2.contains user_id then members
    else members.map (fun p => if p.1 == room_id then (p.1, p.2 ++ [user_id]) else p)
  | none => members ++ [(room_id, [user_id])]

/-- Lookup of room:id:creator_key_hash (RoomRepository::get_creator_key_hash). -/
def getCreatorKeyHash (hashes : List (String × String)) (room_id : String) :
    Option String :=
  (hashes.find? (fun e => e.1 == room_id)).map (fun e => e.2)

/-- The trim-then-drop-empty treatment join_room applies to its optional
credential fields (as_deref().map(str::trim).filter(non-empty)). -/
def trimNonEmpty (o : Option String) : Option String :=
  match o with
  | none => none
  | some s =>
    let t := rustTrim s
    if t.isEmpty then none else some t

/-- Invite-code normalization from src/api/rooms.rs (normalize_invite_code):
keep the digits of the trimmed input; six digits are formatted NNN-NNN,
anything else falls back to the trimmed input. -/
def normalize_invite_code (input : String) : String :=
  let trimmed := rustTrim input
  let digits := (trimmed.toList.filter Char.isDigit).asString
  if digits.length == 6 then
    (digits.toList.take 3).asString ++ "-" ++ (digits.toList.drop 3).asString
  else
    trimmed

/-- Tail of a successful join from src/api/rooms.rs (join_room): mint a user
id, issue a token, SADD the member, answer with ids. The fresh user id and
the issued token are parameters; the response is abstracted to the pair
(user_id, token). -/
def joinFinish (store : Store) (room_id new_user_id token : String) :
    Except AppError (String × String) × Store :=
  (.ok (new_user_id, token),
   { store with members := addMember store.members room_id new_user_id })

/-- Join endpoint from src/api/rooms.rs (join_room). Parameters beyond the
request mirror the handler's effectful dependencies: uuidOk models
Uuid::parse_str success on the path segment, hash models the peppered
SHA-256 hash_code helper, pepper is config.invite_code_salt, now is
Utc::now, and new_user_id and token are the freshly generated user id and
JWT. Every early return carries the keyspace as of that point. -/
def join_room (store : Store) (uuidOk : String → Bool)
    (hash : String → String → String) (pepper : String) (now : Int)
    (room_id : String) (request : JoinRequest) (new_user_id token : String) :
    Except AppError (String × String) × Store :=
  if ¬ uuidOk room_id then
    (.error (.BadRequest ("Invalid room ID format")), store)
  else
    let display := rustTrim request.display
    if display.isEmpty then
      (.error (.BadRequest ("Display name is required")), store)
    else if 100 < rustByteLen display then
      (.error (.BadRequest ("Display name must be at most 100 characters")), store)
    else
      match getRoom store.rooms room_id with
      | none => (.error (.NotFound ("Room " ++ room_id ++ " not found")), store)
      | some room =>
        let member_count := (getMembers store.members room_id).length
        if room.max_publishers ≤ member_count then
          (.error .RoomFull, store)
        else
          match trimNonEmpty request.creator_key with
          | some creator_key =>
            match getCreatorKeyHash store.creator_hashes room_id with
            | none => (.error (.BadRequest ("Access denied")), store)
            | some expected =>
              if hash pepper creator_key ≠ expected then
                (.error (.BadRequest ("Invalid creator key")), store)
              else
                joinFinish store room_id new_user_id token
          | none =>
            match trimNonEmpty request.invite_token with
            | none => (.error (.BadRequest ("Invite token is required")), store)
            | some invite_token =>
              match trimNonEmpty request.invite_code with
              | none => (.error (.BadRequest ("Invitation code is required")), store)
              | some invite_code_raw =>
                match get_invitation store.invites invite_token with
                | none =>
                  (.error (.NotFound ("Invitation not found or expired")), store)
                | some invitation =>
                  if invitation.room_id ≠ room_id then
                    (.error (.BadRequest ("Invitation does not match this room")), store)
                  else if ¬ invitation.is_valid now then
                    (.error (.BadRequest ("Invitation is expired or has reached maximum uses")), store)
                  else
                    let normalized := normalize_invite_code invite_code_raw
                    if hash pepper normalized ≠ invitation.code_hash then
                      (.error (.BadRequest ("Invalid invitation code")), store)
                    else
                      let used := use_invitation store.invites invite_token now
                      if ¬ used.1 then
                        (.error (.BadRequest ("Invitation is expired or has reached maximum uses")),
                         { store with invites := used.2 })
                      else
                        joinFinish { store with invites := used.2 }
                          room_id new_user_id token

/-! Media gateway, subscriber path (src/media/gateway.rs). Local egress
tracks are identified by their track id; the SDP offer produced for a
subscriber peer connection is abstracted to the ordered list of local
egress tracks attached to the connection before create_offer. -/

/-- Publisher session from src/media/gateway.rs (struct PublisherSession);
the peer connection handle and forwarders are irrelevant to the subscribe
path and omitted. -/
structure PublisherSession where
  user_id : String
  feed_id : String
  local_tracks : List String
deriving Repr, DecidableEq

/-- Subscriber session from src/media/gateway.rs (struct SubscriberSession). -/
structure SubscriberSession where
  user_id : String
  subscribed_feeds : List String
deriving Repr, DecidableEq

/-- Per-room media state from src/media/gateway.rs (struct RoomMedia), maps
keyed by user_id. -/
structure RoomMedia where
  publishers : List (String × PublisherSession)
  subscribers : List (String × SubscriberSession)
deriving Repr, DecidableEq

/-- Insert-or-replace under a key in an association list (DashMap::insert). -/
def insertAssoc {α : Type} (m : List (String × α)) (k : String) (v : α) :
    List (String × α) :=
  if m.any (fun e => e.1 == k) then
    m.map (fun e => if e.1 == k then (k, v) else e)
  else
    m ++ [(k, v)]

/-- The inner scan of create_subscriber for one requested feed id: first
publisher whose feed_id matches contributes all its local tracks; no match
contributes nothing. -/
def attachTracksForFeed (publishers : List (String × PublisherSession))
    (feed_id : String) : List String :=
  match publishers.find? (fun e => e.2.feed_id == feed_id) with
  | some e => e.2.local_tracks
  | none => []

/-- The add-track loop of create_subscriber over the requested feed ids, in
request order. -/
def attachTracks (publishers : List (String × PublisherSession))
    (feed_ids : List String) : List String :=
  feed_ids.foldl (fun acc fid => acc ++ attachTracksForFeed publishers fid) []

/-- Subscriber creation from src/media/gateway.rs
(MediaGateway::create_subscriber): missing room is NotFound; otherwise attach
the local tracks of each requested feed that has a matching publisher, store
the SubscriberSession under the user id (overwriting), and return the offer
(abstracted to the attached track list) with the updated room table. -/
def create_subscriber (rooms : List (String × RoomMedia))
    (room_id user_id : String) (feed_ids : List String) :
    Except AppError (List String × List (String × RoomMedia)) :=
  match (rooms.find? (fun e => e.1 == room_id)).map (fun e => e.2) with
  | none => .error (.NotFound ("Room not found"))
  | some room =>
    let offer := attachTracks room.publishers feed_ids
    let session : SubscriberSession :=
      { user_id := user_id, subscribed_feeds := feed_ids }
    let room' := { room with subscribers := insertAssoc room.subscribers user_id session }
    .ok (offer, insertAssoc rooms room_id room')

/-- One entry of the feeds array of a subscribe message
(src/ws/messages.rs, the payload consumed by handle_subscribe). -/
structure SubscribeFeed where
  feed_id : String
deriving Repr, DecidableEq

/-- Reply payload of a subscribe request (struct SubscribeOfferPayload);
sdp is abstracted to the attached track list, as in create_subscriber. -/
structure SubscribeOfferPayload where
  sdp : List String
  feed_ids : List String
deriving Repr, DecidableEq

/-- Subscribe handler from src/ws/handler.rs (handle_subscribe): collect the
requested feed ids, call create_subscriber, record each requested feed id in
the session, and reply subscribe_offer with the offer SDP and the collected
feed ids. -/
def handle_subscribe (rooms : List (String × RoomMedia))
    (session : WsSessionState) (feeds : List SubscribeFeed) :
    Except AppError (SubscribeOfferPayload × WsSessionState × List (String × RoomMedia)) :=
  let feed_ids := feeds.map (fun f => f.feed_id)
  match create_subscriber rooms session.room_id session.user_id feed_ids with
  | .error e => .error e
  | .ok (offer_sdp, rooms') =>
    let session' := feed_ids.foldl (fun s fid => s.add_subscription fid) session
    .ok ({ sdp := offer_sdp, feed_ids := feed_ids }, session', rooms')

/-! Track forwarder (src/media/track_forwarder.rs). The copy task reads RTP
packets from the remote track until a read fails; each packet read is written
to the local egress track unchanged; a failed write is logged and the loop
continues. The spawned loop's guard reads a task-local flag that is created
true and never cleared (as in the source), so the loop's exit is driven
solely by the first failed read. -/

/-- An RTP packet: header fields abstracted to the sequence number, payload
as raw bytes. -/
structure RtpPacket where
  sequence_number : Nat
  payload : List Nat
deriving Repr, DecidableEq

/-- Forwarder state from src/media/track_forwarder.rs (struct TrackForwarder):
the atomic running flag. -/
structure TrackForwarder where
  running : Bool
deriving Repr, DecidableEq

/-- Start from src/media/track_forwarder.rs (TrackForwarder::start):
running.swap(true); when the flag was already set return without spawning.
Result: the forwarder after the call, paired with whether a copy task was
spawned. -/
def TrackForwarder.start (f : TrackForwarder) : TrackForwarder × Bool :=
  if f.running then (f, false)
  else ({ running := true }, true)

/-- Stop from src/media/track_forwarder.rs (TrackForwarder::stop):
running.store(false). -/
def TrackForwarder.stop (_f : TrackForwarder) : TrackForwarder :=
  { running := false }

/-- Is-running from src/media/track_forwarder.rs (TrackForwarder::is_running). -/
def TrackForwarder.is_running (f : TrackForwarder) : Bool :=
  f.running

/-- The copy task of TrackForwarder::start, as a function of the sequence of
read outcomes on the remote track: some p is a successful read of packet p,
none is a failed read. writeFails says which write_rtp calls fail; a failed
write is logged and the loop continues, a failed read terminates the loop.
Result: the ordered list of packets handed to local_track.write_rtp. -/
def copyLoop (writeFails : RtpPacket → Bool) :
    List (Option RtpPacket) → List RtpPacket
  | [] => []
  | none :: _ => []
  | some p :: rest =>
    -- write_rtp(p); on error only a trace log is emitted, then continue
    p :: copyLoop writeFails rest

/-! Concrete sample data used by witnesses and counterexamples. -/

/-- Sample claims for a test user. -/
def sampleClaims : Claims :=
  { sub := "user-123"
    room_id := "room-456"
    display := "Alice"
    iat := 1000
    exp := 1900 }

/-- Sample room with capacity 2. -/
def sampleRoom : Room :=
  { room_id := "room-456"
    name := "standup"
    created_at := 1000
    max_publishers := 2
    ttl_seconds := 7200 }

/-- Sample invitation: unexpired at time 1000, one use allowed, none used,
both security fields non-blank. -/
def sampleInvitation : RoomInvitation :=
  { token := "tok1"
    room_id := "room-456"
    created_by := "system"
    created_at := 1000
    expires_at := 2000
    max_uses := some 1
    used_count := 0
    email := none
    code_salt := "salt"
    code_hash := "761-221"
    }

/-- Sample invitation with a blank code_salt: unexpired, below max_uses. -/
def blankSaltInvitation : RoomInvitation :=
  { token := "tok2"
    room_id := "room-456"
    created_by := "system"
    created_at := 1000
    expires_at := 2000
    max_uses := some 5
    used_count := 0
    email := none
    code_salt := "  "
    code_hash := "hash2"
    }

/-- Sample invitation keyspace holding both sample invitations. -/
def sampleInviteStore : InviteStore :=
  [{ token := "tok1", inv := sampleInvitation, ttl := 1000 },
   { token := "tok2", inv := blankSaltInvitation, ttl := 1000 }]

/-- Sample join-endpoint store: the sample room, one current member, a
creator hash, and the sample invitations. -/
def sampleStore : Store :=
  { rooms := [("room-456", sampleRoom)]
    members := [("room-456", ["user-a"])]
    creator_hashes := [("room-456", "pepper:creator")]
    invites := sampleInviteStore }

/-- Sample join-endpoint store whose room is at capacity. -/
def fullStore : Store :=
  { rooms := [("room-456", sampleRoom)]
    members := [("room-456", ["user-a", "user-b"])]
    creator_hashes := [("room-456", "pepper:creator")]
    invites := sampleInviteStore }

/-- A transparent stand-in for the peppered SHA-256 helper in witnesses. -/
def sampleHash (pepper code : String) : String :=
  pepper ++ ":" ++ code

/-- Sample TTL keyspace for one room, every key at TTL 10. -/
def sampleTtlStore : TtlStore :=
  [("room:r1", 10),
   ("room:r1:members", 10),
   ("room:r1:members_info", 10),
   ("room:r1:publishers", 10),
   ("room:r1:creator_key_hash", 10),
   ("room:r1:invites", 10),
   ("ws:conn-9", 10)]

/-- Sample media table: one publisher in room-456 with feed feed-a owning one
audio and one video egress track. -/
def sampleMediaRooms : List (String × RoomMedia) :=
  [("room-456",
    { publishers :=
        [("user-a",
          { user_id := "user-a"
            feed_id := "feed-a"
            local_tracks := ["feed-a-audio", "feed-a-video"] })]
      subscribers := [] })]

/-- Sample subscriber session bound to room-456. -/
def sampleSession : WsSessionState :=
  WsSessionState.new "conn-1" sampleClaims

/-- Sample RTP packets for forwarder witnesses. -/
def samplePacket1 : RtpPacket :=
  { sequence_number := 7, payload := [0x90, 0x61, 0x22] }

/-- A second sample RTP packet. -/
def samplePacket2 : RtpPacket :=
  { sequence_number := 8, payload := [0x90, 0x61, 0x23] }

/-- Sample auth service. -/
def sampleAuth : AuthService :=
  { secret := "test-secret-key", expiry_seconds := 900 }

/-! Theorems. Each claim of the specification is settled by one theorem
below, with closed witnesses and counterexamples on the concrete sample
data. -/

/-- Claim C8: every session state reachable from a fresh session through
new, set_publishing, add_subscription and remove_subscription satisfies
is_publishing = true exactly when feed_id is some. -/
theorem c8_publishing_iff_feed (s : WsSessionState) (h : s.Reachable) :
    s.is_publishing = true ↔ s.feed_id.isSome = true := by
  induction h with
  | new conn_id claims =>
    simp [WsSessionState.new]
  | set_publishing feed_id _ ih =>
    simp [WsSessionState.set_publishing]
  | add_subscription feed_id _ ih =>
    unfold WsSessionState.add_subscription
    split
    · exact ih
    · simpa using ih
  | remove_subscription feed_id _ ih =>
    simpa [WsSessionState.remove_subscription] using ih

/-- Witness for C8: a session that published feed-a is reachable and
satisfies the invariant. -/
theorem c8_publishing_iff_feed_witness :
    ((WsSessionState.new "conn-1" sampleClaims).set_publishing "feed-a").is_publishing = true ↔
      ((WsSessionState.new "conn-1" sampleClaims).set_publishing "feed-a").feed_id.isSome = true :=
  c8_publishing_iff_feed _
    (WsSessionState.Reachable.set_publishing "feed-a"
      (WsSessionState.Reachable.new "conn-1" sampleClaims))

/-- Claim C7: start sets the running flag and does not spawn a second copy
task when the flag was already set; stop clears the flag; the copy loop
forwards exactly the successfully read packets, unchanged and in arrival
order, up to the first failed read, and its output does not depend on which
writes fail. -/
theorem c7_forwarder :
    (∀ f : TrackForwarder, (f.start).1.running = true) ∧
    (∀ f : TrackForwarder, f.running = true → f.start = (f, false)) ∧
    (∀ f : TrackForwarder, f.running = false →
      f.start = ({ running := true }, true)) ∧
    (∀ f : TrackForwarder, (f.stop).running = false) ∧
    (∀ (writeFails : RtpPacket → Bool) (reads : List (Option RtpPacket)),
      copyLoop writeFails reads = (reads.takeWhile Option.isSome).filterMap id) := by
  refine ⟨?_, ?_, ?_, ?_, ?_⟩
  · intro f
    unfold TrackForwarder.start
    split
    · simpa using by assumption
    · rfl
  · intro f hf
    simp [TrackForwarder.start, hf]
  · intro f hf
    simp [TrackForwarder.start, hf]
  · intro f
    rfl
  · intro writeFails reads
    induction reads with
    | nil => rfl
    | cons head tail ih =>
      cases head with
      | none => rfl
      | some p => simpa [copyLoop] using ih

/-- Witness for C7: a running forwarder is not restarted, and on a concrete
read sequence the copy loop forwards the prefix before the first failed
read even when every write fails. -/
theorem c7_forwarder_witness :
    ({ running := true } : TrackForwarder).running = true ∧
    TrackForwarder.start { running := true } = ({ running := true }, false) ∧
    copyLoop (fun _ => true) [some samplePacket1, some samplePacket2, none, some samplePacket1]
      = [samplePacket1, samplePacket2] := by
  refine ⟨rfl, c7_forwarder.2.1 { running := true } rfl, ?_⟩
  rw [c7_forwarder.2.2.2.2 (fun _ => true)
    [some samplePacket1, some samplePacket2, none, some samplePacket1]]
  decide

/-- Claim C10: for a creation request with a non-empty name of at most 100
bytes, the stored room's max_publishers is the minimum of the requested
value and the configured per-room ceiling, and its ttl_seconds is the
requested value when positive and the configured default otherwise. -/
theorem c10_create_room (config : Config) (request : CreateRoomRequest)
    (fresh_uuid : String) (now : Int)
    (h1 : request.name.isEmpty = false)
    (h2 : rustByteLen request.name ≤ 100) :
    ∃ room : Room,
      create_room config request fresh_uuid now = .ok room ∧
      room.max_publishers = min request.max_publishers config.max_publishers_per_room ∧
      room.ttl_seconds = (if 0 < request.ttl_seconds then request.ttl_seconds
                          else config.room_ttl_seconds) ∧
      room.name = request.name ∧
      room.room_id = fresh_uuid := by
  refine ⟨Room.new fresh_uuid now request.name
    (min request.max_publishers config.max_publishers_per_room)
    (if 0 < request.ttl_seconds then request.ttl_seconds
     else config.room_ttl_seconds), ?_, rfl, rfl, rfl, rfl⟩
  simp [create_room, h1, Nat.not_lt.mpr h2]

/-- Witness for C10: a concrete request with max_publishers above the
ceiling and a zero TTL. -/
theorem c10_create_room_witness :
    ({ name := "standup", max_publishers := 50, ttl_seconds := 0 } :
        CreateRoomRequest).name.isEmpty = false ∧
    rustByteLen ({ name := "standup", max_publishers := 50, ttl_seconds := 0 } :
        CreateRoomRequest).name ≤ 100 ∧
    ∃ room : Room,
      create_room { jwt_expiry_seconds := 900, room_ttl_seconds := 7200,
                    max_publishers_per_room := 4, invite_code_salt := "pepper" }
          { name := "standup", max_publishers := 50, ttl_seconds := 0 }
          "room-456" 1000 = .ok room ∧
      room.max_publishers = min 50 4 ∧
      room.ttl_seconds = (if (0:Nat) < 0 then 0 else 7200) ∧
      room.name = "standup" ∧
      room.room_id = "room-456" :=
  ⟨by decide, by decide,
   c10_create_room
     { jwt_expiry_seconds := 900, room_ttl_seconds := 7200,
       max_publishers_per_room := 4, invite_code_salt := "pepper" }
     { name := "standup", max_publishers := 50, ttl_seconds := 0 }
     "room-456" 1000 (by decide) (by decide)⟩

/-- Claim C6: validating a token produced by generate_token under the same
signing key succeeds and returns claims with sub, room_id and display as
given (while the token has not yet expired); a token whose exp is in the
past, whose signature does not verify against the key, or which is
malformed fails with Unauthorized. -/
theorem c6_token_round_trip (svc : AuthService) (now vnow : Int)
    (u r d : String) :
    (vnow ≤ now + (svc.expiry_seconds : Int) →
      svc.validate_token vnow (svc.generate_token now u r d) =
        .ok { sub := u, room_id := r, display := d, iat := now,
              exp := now + (svc.expiry_seconds : Int) }) ∧
    (∀ (c : Claims) (sig : JwtSignature), c.exp < vnow →
      ∃ m, svc.validate_token vnow (.signed c sig) = .error (.Unauthorized m)) ∧
    (∀ (c : Claims) (sig : JwtSignature),
      sig ≠ { key := svc.secret, payload := c } →
      ∃ m, svc.validate_token vnow (.signed c sig) = .error (.Unauthorized m)) ∧
    (∀ raw : String,
      ∃ m, svc.validate_token vnow (.malformed raw) = .error (.Unauthorized m)) := by
  refine ⟨?_, ?_, ?_, ?_⟩
  · intro hv
    simp [AuthService.validate_token, AuthService.generate_token, jwtEncode,
      jwtDecode, Int.not_lt.mpr hv]
  · intro c sig hexp
    by_cases hsig : sig = { key := svc.secret, payload := c }
    · exact ⟨"Invalid token: " ++ "ExpiredSignature",
        by simp [AuthService.validate_token, jwtDecode, hsig, hexp]⟩
    · exact ⟨"Invalid token: " ++ "InvalidSignature",
        by simp [AuthService.validate_token, jwtDecode, hsig]⟩
  · intro c sig hsig
    exact ⟨"Invalid token: " ++ "InvalidSignature",
      by simp [AuthService.validate_token, jwtDecode, hsig]⟩
  · intro raw
    exact ⟨"Invalid token: " ++ "InvalidToken",
      by simp [AuthService.validate_token, jwtDecode]⟩

/-- Witness for C6: under the sample secret, a token for user-123 in
room-456 round-trips at its issuing instant, and an expired token as well
as a token signed under another secret are rejected as Unauthorized. -/
theorem c6_token_round_trip_witness :
    ((1000 : Int) ≤ 1000 + ((sampleAuth.expiry_seconds : Int)) ∧
      sampleAuth.validate_token 1000
          (sampleAuth.generate_token 1000 "user-123" "room-456" "Alice") =
        .ok { sub := "user-123", room_id := "room-456", display := "Alice",
              iat := 1000, exp := 1000 + ((sampleAuth.expiry_seconds : Int)) }) ∧
    (sampleClaims.exp < 2000 ∧
      ∃ m, sampleAuth.validate_token 2000
          (.signed sampleClaims { key := sampleAuth.secret, payload := sampleClaims }) =
        .error (.Unauthorized m)) :=
  ⟨⟨by decide,
    (c6_token_round_trip sampleAuth 1000 1000 "user-123" "room-456" "Alice").1
      (by decide)⟩,
   ⟨by decide,
    (c6_token_round_trip sampleAuth 1000 2000 "user-123" "room-456" "Alice").2.1
      sampleClaims { key := sampleAuth.secret, payload := sampleClaims } (by decide)⟩⟩

/-- Claim C5: the WebSocket upgrade is rejected with Unauthorized (401) when
token validation fails, rejected with Unauthorized (401) when the token's
embedded room_id differs from the query room_id, rejected with NotFound
(404) when the room is absent from the store, and succeeds otherwise. -/
theorem c5_ws_upgrade (svc : AuthService) (now : Int)
    (rooms : List (String × Room)) (params : WsQueryParams) :
    (∀ e : AppError, svc.validate_token now params.token = .error e →
      ws_upgrade svc now rooms params = .error e ∧ e.statusCode = 401) ∧
    (∀ c : Claims, svc.validate_token now params.token = .ok c →
      c.room_id ≠ params.room_id →
      ∃ m, ws_upgrade svc now rooms params = .error (.Unauthorized m) ∧
        (AppError.Unauthorized m).statusCode = 401) ∧
    (∀ c : Claims, svc.validate_token now params.token = .ok c →
      c.room_id = params.room_id →
      getRoom rooms params.room_id = none →
      ∃ m, ws_upgrade svc now rooms params = .error (.NotFound m) ∧
        (AppError.NotFound m).statusCode = 404) ∧
    (∀ (c : Claims) (room : Room), svc.validate_token now params.token = .ok c →
      c.room_id = params.room_id →
      getRoom rooms params.room_id = some room →
      ws_upgrade svc now rooms params = .ok c) := by
  refine ⟨?_, ?_, ?_, ?_⟩
  · intro e he
    constructor
    · simp [ws_upgrade, he]
    · revert he
      unfold AuthService.validate_token
      cases jwtDecode svc.secret now params.token with
      | error msg =>
        intro he
        cases he
        rfl
      | ok c =>
        intro he
        cases he
  · intro c hc hne
    exact ⟨"Token room_id does not match", by simp [ws_upgrade, hc, hne], rfl⟩
  · intro c hc heq hroom
    exact ⟨"Room not found", by simp [ws_upgrade, hc, heq, hroom], rfl⟩
  · intro c room hc heq hroom
    simp [ws_upgrade, hc, heq, hroom]

/-- Witness for C5: a token issued for room-456 but presented with query
room_id room-999 is rejected as Unauthorized. -/
theorem c5_ws_upgrade_witness :
    sampleAuth.validate_token 1000
        (sampleAuth.generate_token 1000 "user-123" "room-456" "Alice") =
      .ok { sub := "user-123", room_id := "room-456", display := "Alice",
            iat := 1000, exp := 1900 } ∧
    ({ sub := "user-123", room_id := "room-456", display := "Alice",
       iat := 1000, exp := 1900 } : Claims).room_id ≠ "room-999" ∧
    ∃ m,
      ws_upgrade sampleAuth 1000 [("room-456", sampleRoom)]
          { room_id := "room-999",
            token := sampleAuth.generate_token 1000 "user-123" "room-456" "Alice" } =
        .error (.Unauthorized m) ∧
      (AppError.Unauthorized m).statusCode = 401 :=
  ⟨by decide, by decide,
   (c5_ws_upgrade sampleAuth 1000 [("room-456", sampleRoom)]
       { room_id := "room-999",
         token := sampleAuth.generate_token 1000 "user-123" "room-456" "Alice" }).2.1
     { sub := "user-123", room_id := "room-456", display := "Alice",
       iat := 1000, exp := 1900 }
     (by decide) (by decide)⟩

/-- Reading back the key just written by SETEX yields the written record. -/
theorem get_invitation_inviteSetex (store : InviteStore) (token : String)
    (inv : RoomInvitation) (ttl : Int) :
    get_invitation (inviteSetex store token inv ttl) token = some inv := by
  simp [get_invitation, inviteSetex, List.find?]

/-- Counterexample for C3 as stated: the invitation under token tok2 is not
expired at time 1000 and its use count 0 is below its max_uses 5, yet
use_invitation returns false and leaves the keyspace unchanged, because the
invitation's code_salt is blank. -/
theorem c3_use_invitation_counterexample :
    get_invitation sampleInviteStore "tok2" = some blankSaltInvitation ∧
    ¬ (blankSaltInvitation.expires_at < 1000) ∧
    blankSaltInvitation.max_uses = some 5 ∧
    blankSaltInvitation.used_count < 5 ∧
    use_invitation sampleInviteStore "tok2" 1000 = (false, sampleInviteStore) := by
  decide

/-- Claim C3 (amended): use_invitation returns true and rewrites the stored
invitation with its use count incremented by exactly one under the remaining
TTL when the invitation is valid per RoomInvitation::is_valid — not expired,
use count below max_uses, and code_salt and code_hash non-blank; it returns
false and leaves the keyspace unchanged when the invitation is missing or
invalid; in particular once used_count has reached max_uses every subsequent
use_invitation on that token returns false. -/
theorem c3_use_invitation (store : InviteStore) (token : String) (now : Int) :
    (get_invitation store token = none →
      use_invitation store token now = (false, store)) ∧
    (∀ inv : RoomInvitation, get_invitation store token = some inv →
      inv.is_valid now = false →
      use_invitation store token now = (false, store)) ∧
    (∀ inv : RoomInvitation, get_invitation store token = some inv →
      inv.is_valid now = true →
      (use_invitation store token now).1 = true ∧
      (use_invitation store token now).2 =
        inviteSetex store token { inv with used_count := inv.used_count + 1 }
          (max (inv.expires_at - now) 1) ∧
      get_invitation (use_invitation store token now).2 token =
        some { inv with used_count := inv.used_count + 1 }) ∧
    (∀ (inv : RoomInvitation) (m : Nat), get_invitation store token = some inv →
      inv.max_uses = some m → m ≤ inv.used_count →
      (use_invitation store token now).1 = false) := by
  refine ⟨?_, ?_, ?_, ?_⟩
  · intro hnone
    simp [use_invitation, hnone]
  · intro inv hsome hinvalid
    simp [use_invitation, hsome, hinvalid]
  · intro inv hsome hvalid
    refine ⟨?_, ?_, ?_⟩
    · simp [use_invitation, hsome, hvalid]
    · simp [use_invitation, hsome, hvalid]
    · simp only [use_invitation, hsome, hvalid, Bool.not_true]
      simp [get_invitation_inviteSetex]
  · intro inv m hsome hmax hused
    have hinvalid : inv.is_valid now = false := by
      unfold RoomInvitation.is_valid
      rw [hmax]
      simp [hused]
    simp [use_invitation, hsome, hinvalid]

/-- Witness for C3: using the valid sample invitation tok1 (max_uses 1,
used_count 0) succeeds and stores used_count 1; an invitation whose
used_count equals its max_uses is refused. -/
theorem c3_use_invitation_witness :
    (get_invitation sampleInviteStore "tok1" = some sampleInvitation ∧
      sampleInvitation.is_valid 1000 = true ∧
      (use_invitation sampleInviteStore "tok1" 1000).1 = true ∧
      (use_invitation sampleInviteStore "tok1" 1000).2 =
        inviteSetex sampleInviteStore "tok1"
          { sampleInvitation with used_count := sampleInvitation.used_count + 1 }
          (max (sampleInvitation.expires_at - 1000) 1) ∧
      get_invitation (use_invitation sampleInviteStore "tok1" 1000).2 "tok1" =
        some { sampleInvitation with used_count := sampleInvitation.used_count + 1 }) ∧
    (get_invitation (use_invitation sampleInviteStore "tok1" 1000).2 "tok1" =
        some { sampleInvitation with used_count := 1 } →
      { sampleInvitation with used_count := 1 }.max_uses = some 1 →
      1 ≤ ({ sampleInvitation with used_count := 1 } : RoomInvitation).used_count →
      (use_invitation (use_invitation sampleInviteStore "tok1" 1000).2 "tok1" 1000).1 = false) := by
  constructor
  · refine ⟨by decide, by decide, ?_⟩
    exact (c3_use_invitation sampleInviteStore "tok1" 1000).2.2.1 sampleInvitation
      (by decide) (by decide)
  · exact (c3_use_invitation (use_invitation sampleInviteStore "tok1" 1000).2
      "tok1" 1000).2.2.2 { sampleInvitation with used_count := 1 } 1

/-- EXPIRE does not change which keys exist. -/
theorem lookupTTL_expire_isSome (s : TtlStore) (key : String) (t : Int)
    (k : String) :
    (lookupTTL (expire s key t) k).isSome = (lookupTTL s k).isSome := by
  induction s with
  | nil => rfl
  | cons e s ih =>
    by_cases hk : (e.1 == k) = true
    · by_cases hkey : (e.1 == key) = true
      · simp [lookupTTL, expire, List.find?, hk, hkey]
      · simp [lookupTTL, expire, List.find?, hk, hkey]
    · by_cases hkey : (e.1 == key) = true
      · simpa [lookupTTL, expire, List.find?, hk, hkey] using
          (by simpa [lookupTTL, expire] using ih)
      · simpa [lookupTTL, expire, List.find?, hk, hkey] using
          (by simpa [lookupTTL, expire] using ih)

/-- EXPIRE on a present key sets its TTL. -/
theorem lookupTTL_expire_self (s : TtlStore) (key : String) (t : Int)
    (h : (lookupTTL s key).isSome = true) :
    lookupTTL (expire s key t) key = some t := by
  induction s with
  | nil => simp [lookupTTL] at h
  | cons e s ih =>
    by_cases hkey : (e.1 == key) = true
    · simp [lookupTTL, expire, List.find?, hkey]
    · have h' : (lookupTTL s key).isSome = true := by
        simpa [lookupTTL, List.find?, hkey] using h
      simpa [lookupTTL, expire, List.find?, hkey] using
        (by simpa [lookupTTL, expire] using ih h')

/-- EXPIRE on a different key leaves a key's TTL unchanged. -/
theorem lookupTTL_expire_ne (s : TtlStore) (key : String) (t : Int)
    (k : String) (h : k ≠ key) :
    lookupTTL (expire s key t) k = lookupTTL s k := by
  induction s with
  | nil => rfl
  | cons e s ih =>
    by_cases hk : (e.1 == k) = true
    · have hkey : (e.1 == key) = false := by
        rcases eq_of_beq hk with rfl
        exact beq_eq_false_iff_ne.mpr h
      simp [lookupTTL, expire, List.find?, hk, hkey]
    · by_cases hkey : (e.1 == key) = true
      · simpa [lookupTTL, expire, List.find?, hk, hkey] using
          (by simpa [lookupTTL, expire] using ih)
      · simpa [lookupTTL, expire, List.find?, hk, hkey] using
          (by simpa [lookupTTL, expire] using ih)

/-- EXPIRE with the TTL a key already has preserves that key's TTL, whatever
key the EXPIRE targets. -/
theorem lookupTTL_expire_same_val (s : TtlStore) (key : String) (t : Int)
    (k : String) (h : lookupTTL s k = some t) :
    lookupTTL (expire s key t) k = some t := by
  by_cases hkk : k = key
  · subst hkk
    exact lookupTTL_expire_self s k t (by simp [h])
  · rw [lookupTTL_expire_ne s key t k hkk]
    exact h

/-- Counterexample for C2 as stated: refreshing room r1 to TTL 99 sets the
room, members and publishers keys to 99 but leaves the host-secret-hash
key, the invites key and the socket-session key at their old TTL 10. -/
theorem c2_refresh_room_ttl_counterexample :
    lookupTTL (refresh_room_ttl sampleTtlStore "r1" 99) ("room:r1") = some 99 ∧
    lookupTTL (refresh_room_ttl sampleTtlStore "r1" 99) ("room:r1:members") = some 99 ∧
    lookupTTL (refresh_room_ttl sampleTtlStore "r1" 99) ("room:r1:publishers") = some 99 ∧
    lookupTTL sampleTtlStore ("room:r1:creator_key_hash") = some 10 ∧
    lookupTTL (refresh_room_ttl sampleTtlStore "r1" 99) ("room:r1:creator_key_hash") = some 10 ∧
    lookupTTL (refresh_room_ttl sampleTtlStore "r1" 99) ("room:r1:invites") = some 10 ∧
    lookupTTL (refresh_room_ttl sampleTtlStore "r1" 99) ("ws:conn-9") = some 10 := by
  decide

/-- Claim C2 (amended): refresh_room_ttl sets the given TTL on exactly the
room key, the members key and the publishers key of the room; every other
key — including the invites set, the per-socket session keys and the
host-secret-hash key — keeps its previous TTL. -/
theorem c2_refresh_room_ttl (store : TtlStore) (rid : String) (ttl : Int)
    (k : String) :
    ((k = "room:" ++ rid ∨ k = "room:" ++ rid ++ ":members" ∨
        k = "room:" ++ rid ++ ":publishers") →
      ∀ t0 : Int, lookupTTL store k = some t0 →
        lookupTTL (refresh_room_ttl store rid ttl) k = some ttl) ∧
    ((k ≠ "room:" ++ rid ∧ k ≠ "room:" ++ rid ++ ":members" ∧
        k ≠ "room:" ++ rid ++ ":publishers") →
      lookupTTL (refresh_room_ttl store rid ttl) k = lookupTTL store k) := by
  have hfold : refresh_room_ttl store rid ttl =
      expire (expire (expire store ("room:" ++ rid) ttl)
          ("room:" ++ rid ++ ":members") ttl)
        ("room:" ++ rid ++ ":publishers") ttl := rfl
  constructor
  · rintro (rfl | rfl | rfl) t0 h0
    · rw [hfold]
      apply lookupTTL_expire_same_val
      apply lookupTTL_expire_same_val
      exact lookupTTL_expire_self store _ ttl (by simp [h0])
    · rw [hfold]
      apply lookupTTL_expire_same_val
      apply lookupTTL_expire_self
      rw [lookupTTL_expire_isSome]
      simp [h0]
    · rw [hfold]
      apply lookupTTL_expire_self
      rw [lookupTTL_expire_isSome, lookupTTL_expire_isSome]
      simp [h0]
  · rintro ⟨h1, h2, h3⟩
    rw [hfold, lookupTTL_expire_ne _ _ _ _ h3, lookupTTL_expire_ne _ _ _ _ h2,
      lookupTTL_expire_ne _ _ _ _ h1]

/-- Witness for C2: on the sample keyspace, the members key of room r1 is
present at TTL 10 and is set to 99 by the refresh, while the session key
ws:conn-9 differs from all three refreshed keys and keeps its TTL. -/
theorem c2_refresh_room_ttl_witness :
    (("room:r1:members" : String) = "room:" ++ "r1" ∨
      ("room:r1:members" : String) = "room:" ++ "r1" ++ ":members" ∨
      ("room:r1:members" : String) = "room:" ++ "r1" ++ ":publishers") ∧
    lookupTTL sampleTtlStore ("room:r1:members") = some 10 ∧
    lookupTTL (refresh_room_ttl sampleTtlStore "r1" 99) ("room:r1:members") = some 99 ∧
    lookupTTL (refresh_room_ttl sampleTtlStore "r1" 99) ("ws:conn-9") =
      lookupTTL sampleTtlStore ("ws:conn-9") :=
  ⟨Or.inr (Or.inl (by decide)), by decide,
   (c2_refresh_room_ttl sampleTtlStore "r1" 99 "room:r1:members").1
     (Or.inr (Or.inl (by decide))) 10 (by decide),
   (c2_refresh_room_ttl sampleTtlStore "r1" 99 "ws:conn-9").2
     ⟨by decide, by decide, by decide⟩⟩

/-- A requested feed id with no matching publisher contributes no tracks:
the add-track loop computes the same attachment when such feed ids are
dropped from the request. -/
theorem attachTracks_filter (pubs : List (String × PublisherSession))
    (ids : List String) :
    attachTracks pubs ids =
      attachTracks pubs
        (ids.filter (fun fid => pubs.any (fun p => p.2.feed_id == fid))) := by
  suffices hgen : ∀ (ids : List String) (acc : List String),
      ids.foldl (fun acc fid => acc ++ attachTracksForFeed pubs fid) acc =
        (ids.filter (fun fid => pubs.any (fun p => p.2.feed_id == fid))).foldl
          (fun acc fid => acc ++ attachTracksForFeed pubs fid) acc by
    exact hgen ids []
  intro ids
  induction ids with
  | nil => intro acc; rfl
  | cons fid rest ih =>
    intro acc
    by_cases hfound : pubs.any (fun p => p.2.feed_id == fid) = true
    · simp only [List.foldl_cons, List.filter_cons, hfound, if_pos trivial]
      exact ih (acc ++ attachTracksForFeed pubs fid)
    · have hfind : pubs.find? (fun p => p.2.feed_id == fid) = none := by
        rw [List.find?_eq_none]
        intro x hx hpx
        exact hfound (List.any_eq_true.mpr ⟨x, hx, hpx⟩)
      have hempty : attachTracksForFeed pubs fid = [] := by
        simp [attachTracksForFeed, hfind]
      simp only [List.foldl_cons, List.filter_cons, hempty, List.append_nil,
        Bool.eq_false_iff.mpr hfound]
      simpa using ih acc

/-- Counterexample for C1 as stated: room-456 has a single publisher with
feed feed-a; a subscribe for feeds [feed-a, feed-b] succeeds, attaches only
feed-a's two tracks, yet the reply's feed_ids still lists feed-b, which
matches no publisher. -/
theorem c1_handle_subscribe_counterexample :
    ((sampleMediaRooms.find? (fun e => e.1 == "room-456")).map
        (fun e => e.2.publishers.any (fun p => p.2.feed_id == "feed-b"))) = some false ∧
    sampleSession.room_id = "room-456" ∧
    (handle_subscribe sampleMediaRooms sampleSession
        [{ feed_id := "feed-a" }, { feed_id := "feed-b" }]).map (fun r => r.1) =
      .ok { sdp := ["feed-a-audio", "feed-a-video"],
            feed_ids := ["feed-a", "feed-b"] } := by
  decide

/-- Claim C1 (amended): a subscribe on an existing room always succeeds and
replies subscribe_offer whose feed_ids lists all the requested feed ids, in
request order, including those that match no publisher; a requested feed id
that matches no publisher is silently skipped when attaching tracks, so the
offer contains only the tracks of the feeds that were found. -/
theorem c1_handle_subscribe (rooms : List (String × RoomMedia))
    (session : WsSessionState) (feeds : List SubscribeFeed) (room : RoomMedia)
    (h : (rooms.find? (fun e => e.1 == session.room_id)).map (fun e => e.2) =
      some room) :
    ∃ (session2 : WsSessionState) (rooms2 : List (String × RoomMedia)),
      handle_subscribe rooms session feeds =
        .ok ({ sdp := attachTracks room.publishers
                 ((feeds.map (fun f => f.feed_id)).filter
                   (fun fid => room.publishers.any (fun p => p.2.feed_id == fid))),
               feed_ids := feeds.map (fun f => f.feed_id) },
             session2, rooms2) := by
  refine ⟨(feeds.map (fun f => f.feed_id)).foldl (fun s fid => s.add_subscription fid) session, insertAssoc rooms session.room_id { room with subscribers := insertAssoc room.subscribers session.user_id { user_id := session.user_id, subscribed_feeds := feeds.map (fun f => f.feed_id) } }, ?_⟩
  simp only [handle_subscribe, create_subscriber, h]
  rw [← attachTracks_filter]

/-- Witness for C1: on the sample room, subscribing to [feed-a, feed-b]
yields an offer carrying exactly feed-a's tracks while echoing both
requested feed ids. -/
theorem c1_handle_subscribe_witness :
    ((sampleMediaRooms.find? (fun e => e.1 == sampleSession.room_id)).map
        (fun e => e.2) = some
          { publishers :=
              [("user-a",
                { user_id := "user-a"
                  feed_id := "feed-a"
                  local_tracks := ["feed-a-audio", "feed-a-video"] })]
            subscribers := [] }) ∧
    ∃ (session2 : WsSessionState) (rooms2 : List (String × RoomMedia)),
      handle_subscribe sampleMediaRooms sampleSession
          [{ feed_id := "feed-a" }, { feed_id := "feed-b" }] =
        .ok ({ sdp := attachTracks
                 ({ publishers :=
                      [("user-a",
                        { user_id := "user-a"
                          feed_id := "feed-a"
                          local_tracks := ["feed-a-audio", "feed-a-video"] })]
                    subscribers := [] } : RoomMedia).publishers
                 ((([{ feed_id := "feed-a" }, { feed_id := "feed-b" }] :
                      List SubscribeFeed).map (fun f => f.feed_id)).filter
                   (fun fid =>
                     ({ publishers :=
                          [("user-a",
                            { user_id := "user-a"
                              feed_id := "feed-a"
                              local_tracks := ["feed-a-audio", "feed-a-video"] })]
                        subscribers := [] } : RoomMedia).publishers.any
                       (fun p => p.2.feed_id == fid))),
               feed_ids := ([{ feed_id := "feed-a" }, { feed_id := "feed-b" }] :
                   List SubscribeFeed).map (fun f => f.feed_id) },
             session2, rooms2) :=
  ⟨by decide,
   c1_handle_subscribe sampleMediaRooms sampleSession
     [{ feed_id := "feed-a" }, { feed_id := "feed-b" }]
     { publishers :=
         [("user-a",
           { user_id := "user-a"
             feed_id := "feed-a"
             local_tracks := ["feed-a-audio", "feed-a-video"] })]
       subscribers := [] }
     (by decide)⟩

/-- Claim C4: on a join attempt for an existing room (with a well-formed
room id and display name), a member count at or above the room's
max_publishers fails the join with RoomFull — mapped to HTTP 409 — leaving
the store untouched; below capacity the join can never fail with RoomFull. -/
theorem c4_join_room_capacity (store : Store) (uuidOk : String → Bool)
    (hash : String → String → String) (pepper : String) (now : Int)
    (room_id : String) (request : JoinRequest) (uid tok : String) (room : Room)
    (hu : uuidOk room_id = true)
    (hd1 : (rustTrim request.display).isEmpty = false)
    (hd2 : rustByteLen (rustTrim request.display) ≤ 100)
    (hr : getRoom store.rooms room_id = some room) :
    (room.max_publishers ≤ (getMembers store.members room_id).length →
      join_room store uuidOk hash pepper now room_id request uid tok =
        (.error .RoomFull, store) ∧ AppError.RoomFull.statusCode = 409) ∧
    ((getMembers store.members room_id).length < room.max_publishers →
      (join_room store uuidOk hash pepper now room_id request uid tok).1 ≠
        .error .RoomFull) := by
  constructor
  · intro hfull
    refine ⟨?_, rfl⟩
    unfold join_room
    simp [hu, hd1, Nat.not_lt.mpr hd2, hr, hfull]
  · intro hlt
    unfold join_room
    simp only [hu, hd1, Nat.not_lt.mpr hd2, hr, Nat.not_le.mpr hlt]
    (repeat' split) <;> simp [joinFinish]

/-- Witness for C4: the sample room has max_publishers 2; with two members
the join is refused with RoomFull and status 409, and with one member a
join can never produce RoomFull. -/
theorem c4_join_room_capacity_witness :
    getRoom fullStore.rooms "room-456" = some sampleRoom ∧
    sampleRoom.max_publishers ≤ (getMembers fullStore.members "room-456").length ∧
    (join_room fullStore (fun _ => true) sampleHash "pepper" 1000 "room-456"
        { display := "Bob", creator_key := some "creator",
          invite_token := none, invite_code := none } "user-new" "jwt" =
      (.error .RoomFull, fullStore) ∧ AppError.RoomFull.statusCode = 409) ∧
    ((getMembers sampleStore.members "room-456").length < sampleRoom.max_publishers ∧
      (join_room sampleStore (fun _ => true) sampleHash "pepper" 1000 "room-456"
          { display := "Bob", creator_key := some "creator",
            invite_token := none, invite_code := none } "user-new" "jwt").1 ≠
        .error .RoomFull) :=
  ⟨by decide, by decide,
   (c4_join_room_capacity fullStore (fun _ => true) sampleHash "pepper" 1000
       "room-456"
       { display := "Bob", creator_key := some "creator",
         invite_token := none, invite_code := none } "user-new" "jwt" sampleRoom
       (by decide) (by decide) (by decide) (by decide)).1 (by decide),
   ⟨by decide,
    (c4_join_room_capacity sampleStore (fun _ => true) sampleHash "pepper" 1000
        "room-456"
        { display := "Bob", creator_key := some "creator",
          invite_token := none, invite_code := none } "user-new" "jwt" sampleRoom
        (by decide) (by decide) (by decide) (by decide)).2 (by decide)⟩⟩

/-- Claim C9: an invitation whose code_salt or code_hash is blank after
trimming is invalid, use_invitation refuses it leaving the keyspace
unchanged, and a guest join presenting it is rejected — even though it is
not expired and its use count is below max_uses. -/
theorem c9_blank_security_fields (inv : RoomInvitation) (now : Int)
    (store : InviteStore) (tok : String)
    (h : (rustTrim inv.code_salt).isEmpty = true ∨
      (rustTrim inv.code_hash).isEmpty = true) :
    inv.is_valid now = false ∧
    (get_invitation store tok = some inv →
      use_invitation store tok now = (false, store)) ∧
    (∀ (jstore : Store) (uuidOk : String → Bool)
        (hash : String → String → String) (pepper room_id : String)
        (request : JoinRequest) (uid jwt : String) (room : Room),
      uuidOk room_id = true →
      (rustTrim request.display).isEmpty = false →
      rustByteLen (rustTrim request.display) ≤ 100 →
      getRoom jstore.rooms room_id = some room →
      (getMembers jstore.members room_id).length < room.max_publishers →
      trimNonEmpty request.creator_key = none →
      trimNonEmpty request.invite_token = some tok →
      (∃ c, trimNonEmpty request.invite_code = some c) →
      get_invitation jstore.invites tok = some inv →
      inv.room_id = room_id →
      join_room jstore uuidOk hash pepper now room_id request uid jwt =
        (.error (.BadRequest ("Invitation is expired or has reached maximum uses")),
         jstore)) := by
  have hval : inv.is_valid now = false := by
    unfold RoomInvitation.is_valid
    rcases h with h | h <;> simp [h]
  refine ⟨hval, ?_, ?_⟩
  · intro hg
    simp [use_invitation, hg, hval]
  · intro jstore uuidOk hash pepper room_id request uid jwt room hu hd1 hd2 hr
      hcap hck htok hcode hg hrid
    rcases hcode with ⟨c, hc⟩
    unfold join_room
    simp [hu, hd1, Nat.not_lt.mpr hd2, hr, Nat.not_le.mpr hcap, hck, htok, hc,
      hg, hrid, hval]

/-- Witness for C9: the blank-salt invitation tok2 is unexpired with
used_count 0 below max_uses 5, yet is invalid, unusable, and a guest join
presenting it on the sample store is rejected. -/
theorem c9_blank_security_fields_witness :
    (rustTrim blankSaltInvitation.code_salt).isEmpty = true ∧
    ¬ (blankSaltInvitation.expires_at < 1000) ∧
    blankSaltInvitation.used_count < 5 ∧
    blankSaltInvitation.is_valid 1000 = false ∧
    use_invitation sampleInviteStore "tok2" 1000 = (false, sampleInviteStore) ∧
    join_room sampleStore (fun _ => true) sampleHash "pepper" 1000 "room-456"
        { display := "Bob", creator_key := none,
          invite_token := some "tok2", invite_code := some "123456" }
        "user-new" "jwt" =
      (.error (.BadRequest ("Invitation is expired or has reached maximum uses")),
       sampleStore) :=
  ⟨by decide, by decide, by decide,
   (c9_blank_security_fields blankSaltInvitation 1000 sampleInviteStore "tok2"
       (Or.inl (by decide))).1,
   (c9_blank_security_fields blankSaltInvitation 1000 sampleInviteStore "tok2"
       (Or.inl (by decide))).2.1 (by decide),
   (c9_blank_security_fields blankSaltInvitation 1000 sampleInviteStore "tok2"
       (Or.inl (by decide))).2.2 sampleStore (fun _ => true) sampleHash "pepper"
     "room-456"
     { display := "Bob", creator_key := none,
       invite_token := some "tok2", invite_code := some "123456" }
     "user-new" "jwt" sampleRoom
     (by decide) (by decide) (by decide) (by decide) (by decide) (by decide)
     (by decide) ⟨"123456", by decide⟩ (by decide) (by decide)⟩

end TrueGather
